import Mathlib

/-!
Verification of the Petstore MCP server/client repository.

Shallow embedding of `petstore-mcp-server.py` (the `make_api_request`
response-normalization function, the eighteen tool handlers, and the static
tool registry returned by `handle_list_tools`), of `client_config.py`
(`ServerConfig` / `ClientConfig`), and of `agent_interface.py`
(`PetstoreAgent`).  Python dictionaries are association lists from strings to
JSON values, Python truthiness is `pyTruthy`, the HTTP transport (httpx) is an
oracle `Backend` mapping each issued request to either a response or a
transport error, and the `raise`/`except PetstoreAPIError` control flow is the
`Except` type.
-/

/-- JSON values as produced by `response.json()` / passed in `arguments`.
Numbers are modelled as integers (all numeric values relevant here are ids,
counts and status codes). -/
inductive Json where
  | null
  | bool (b : Bool)
  | num (n : Int)
  | str (s : String)
  | arr (elems : List Json)
  | obj (fields : List (String × Json))

/-- A Python `dict` with string keys, as the `arguments` mapping of a tool
call: an association list (first binding of a key wins, matching the unique
keys of a real `dict`). -/
abbrev PyDict := List (String × Json)

/-- Association-list lookup: `d[k]` as an `Option` (`none` = key absent). -/
def pyLookup (d : PyDict) (k : String) : Option Json :=
  match d with
  | [] => none
  | (k2, v) :: rest => if k2 = k then some v else pyLookup rest k

/-- Python `d.get(k)`: the bound value, or `None` when the key is absent. -/
def pyGet (d : PyDict) (k : String) : Json :=
  (pyLookup d k).getD Json.null

/-- Python `d.get(k, default)`. -/
def pyGetD (d : PyDict) (k : String) (default : Json) : Json :=
  (pyLookup d k).getD default

/-- Remove a key from a dictionary (`del d[k]` / building `d` without `k`). -/
def pyErase (d : PyDict) (k : String) : PyDict :=
  match d with
  | [] => []
  | (k2, v) :: rest => if k2 = k then pyErase rest k else (k2, v) :: pyErase rest k

/-- Bind `k` to `v` in `d`, replacing any previous binding (`d[k] = v`). -/
def pyInsert (d : PyDict) (k : String) (v : Json) : PyDict :=
  (k, v) :: pyErase d k

/-- Python truthiness of a JSON value: `None`, `False`, `0`, `""`, `[]` and
`{}` are falsy, everything else is truthy (the `if not x:` tests of the tool
handlers). -/
def pyTruthy : Json → Bool
  | .null => false
  | .bool b => b
  | .num n => n != 0
  | .str s => s != ""
  | .arr [] => false
  | .arr (_ :: _) => true
  | .obj [] => false
  | .obj (_ :: _) => true

/-- Comma-separated concatenation, used by the serializers below. -/
def joinComma : List String → String
  | [] => ""
  | [s] => s
  | s :: rest => s ++ ", " ++ joinComma rest

mutual

/-- Python `repr` of a JSON value (element form used inside containers).
Escape subtleties of string reprs are immaterial to every property proved
here. -/
def pyRepr : Json → String
  | .null => "None"
  | .bool true => "True"
  | .bool false => "False"
  | .num n => toString n
  | .str s => "'" ++ s ++ "'"
  | .arr elems => "[" ++ joinComma (pyReprList elems) ++ "]"
  | .obj fields => "\x7b" ++ joinComma (pyReprFields fields) ++ "\x7d"

/-- `repr` of each element of a list. -/
def pyReprList : List Json → List String
  | [] => []
  | v :: rest => pyRepr v :: pyReprList rest

/-- `repr` of each `key: value` entry of a dict. -/
def pyReprFields : List (String × Json) → List String
  | [] => []
  | (k, v) :: rest => ("'" ++ k ++ "': " ++ pyRepr v) :: pyReprFields rest

end

/-- Python `str()` / f-string conversion of a JSON value (`f"/pet/{pet_id}"`
and `f"... {e.message}"`): a string converts to itself, anything else to its
`repr`. -/
def pyStr : Json → String
  | .str s => s
  | v => pyRepr v

mutual

/-- Model of Python `json.dumps(v, indent=2)`.  The handlers only embed its
output verbatim inside a reply string; the exact layout (indentation,
separators) is immaterial to every property proved here, so a compact
serialization is used. -/
def jsonDumps : Json → String
  | .null => "null"
  | .bool true => "true"
  | .bool false => "false"
  | .num n => toString n
  | .str s => "\"" ++ s ++ "\""
  | .arr elems => "[" ++ joinComma (jsonDumpsList elems) ++ "]"
  | .obj fields => "\x7b" ++ joinComma (jsonDumpsFields fields) ++ "\x7d"

/-- Serialization of each element of a JSON array. -/
def jsonDumpsList : List Json → List String
  | [] => []
  | v :: rest => jsonDumps v :: jsonDumpsList rest

/-- Serialization of each `"key": value` member of a JSON object. -/
def jsonDumpsFields : List (String × Json) → List String
  | [] => []
  | (k, v) :: rest => ("\"" ++ k ++ "\": " ++ jsonDumps v) :: jsonDumpsFields rest

end

/-- Base URL for the Petstore API (`BASE_URL` in `petstore-mcp-server.py`). -/
def BASE_URL : String := "https://petstore3.swagger.io/api/v3"

/-- One outbound HTTP request as handed to `http_client.request(...)` by
`make_api_request`: method, full URL, query parameters, optional JSON body,
headers, optional multipart files. -/
structure ApiRequest where
  method : String
  url : String
  params : List (String × Json)
  json_data : Option Json
  headers : List (String × Json)
  files : Option Json

/-- An HTTP response as seen through httpx: status code, decoded body text
(`response.text`, with `text = ""` exactly when `response.content` is empty),
and `json = some v` when `response.json()` parses the body to `v`, `none` when
it raises. -/
structure HttpResponse where
  status_code : Nat
  text : String
  json : Option Json

/-- Outcome of one transport round trip: a response, or an
`httpx.RequestError` (connection refused, timeout, DNS failure) carrying the
error's text. -/
inductive HttpOutcome where
  | response (r : HttpResponse)
  | requestError (errText : String)

/-- The HTTP transport as an oracle: what the network does with each issued
request. -/
abbrev Backend := ApiRequest → HttpOutcome

/-- The payload of a raised `PetstoreAPIError(status_code, message)`.  The
message is a JSON value because the `error_data["message"]` branch stores
whatever value that field holds (a Python string becomes `Json.str`). -/
structure PetstoreAPIError where
  status_code : Nat
  message : Json

/-- `make_api_request(method, endpoint, params, json_data, headers, files)`
from `petstore-mcp-server.py`, lines 48-90.  Returns the parsed reply or the
raised `PetstoreAPIError`, paired with the list of HTTP requests it issued
(always exactly the one `http_client.request` call). -/
def make_api_request (backend : Backend) (method : String) (endpoint : String)
    (params : List (String × Json)) (json_data : Option Json)
    (headers : List (String × Json)) (files : Option Json) :
    Except PetstoreAPIError Json × List ApiRequest :=
  let url := BASE_URL ++ endpoint
  let req : ApiRequest :=
    { method := method, url := url, params := params,
      json_data := json_data, headers := headers, files := files }
  match backend req with
  | .requestError e =>
      (.error { status_code := 0, message := .str ("Request failed: " ++ e) }, [req])
  | .response r =>
      if r.status_code ≥ 400 then
        let default_msg := "HTTP " ++ toString r.status_code
        let error_msg : Json :=
          match r.json with
          | some (.obj fields) =>
              match pyLookup fields "message" with
              | some m => m
              | none => .str default_msg
          | some _ => .str default_msg
          | none => .str (if r.text = "" then default_msg else r.text)
        (.error { status_code := r.status_code, message := error_msg }, [req])
      else if r.text = "" then
        (.ok (.obj [("status", .str "success"),
                    ("message", .str "Operation completed successfully")]), [req])
      else
        match r.json with
        | some v => (.ok v, [req])
        | none => (.ok (.obj [("status", .str "success"), ("data", .str r.text)]), [req])

/-- One `TextContent(type="text", text=...)` block of an MCP reply. -/
structure TextContent where
  type : String
  text : String

/-- A `CallToolResult`: the uniform reply value of every tool handler. -/
structure CallToolResult where
  content : List TextContent

/-- `CallToolResult(content=[TextContent(type="text", text=s)])` — the shape
every handler's `return` takes. -/
def mkResult (s : String) : CallToolResult :=
  { content := [{ type := "text", text := s }] }

/-- The `try: result = await make_api_request(...); return <success text>`
/ `except PetstoreAPIError as e: return <error text>` pattern shared by every
tool handler: the caught error and the returned value both become a
`CallToolResult`, and the requests issued are those of the one API call. -/
def tryApi (call : Except PetstoreAPIError Json × List ApiRequest)
    (okText : Json → String) (errText : PetstoreAPIError → String) :
    CallToolResult × List ApiRequest :=
  match call with
  | (.ok result, reqs) => (mkResult (okText result), reqs)
  | (.error e, reqs) => (mkResult (errText e), reqs)

/-- Tool handler `add_pet` (server lines 95-112). -/
def add_pet (backend : Backend) (arguments : PyDict) : CallToolResult × List ApiRequest :=
  let pet_data := pyGet arguments "pet"
  if !pyTruthy pet_data then
    (mkResult "Error: Pet data is required", [])
  else
    tryApi (make_api_request backend "POST" "/pet" [] (some pet_data) [] none)
      (fun result => "Pet added successfully: " ++ jsonDumps result)
      (fun e => "Error adding pet: " ++ pyStr e.message)

/-- Tool handler `update_pet` (server lines 115-132). -/
def update_pet (backend : Backend) (arguments : PyDict) : CallToolResult × List ApiRequest :=
  let pet_data := pyGet arguments "pet"
  if !pyTruthy pet_data then
    (mkResult "Error: Pet data is required", [])
  else
    tryApi (make_api_request backend "PUT" "/pet" [] (some pet_data) [] none)
      (fun result => "Pet updated successfully: " ++ jsonDumps result)
      (fun e => "Error updating pet: " ++ pyStr e.message)

/-- Tool handler `get_pet_by_id` (server lines 135-152). -/
def get_pet_by_id (backend : Backend) (arguments : PyDict) : CallToolResult × List ApiRequest :=
  let pet_id := pyGet arguments "pet_id"
  if !pyTruthy pet_id then
    (mkResult "Error: Pet ID is required", [])
  else
    tryApi (make_api_request backend "GET" ("/pet/" ++ pyStr pet_id) [] none [] none)
      (fun result => "Pet details: " ++ jsonDumps result)
      (fun e => "Error getting pet: " ++ pyStr e.message)

/-- Tool handler `find_pets_by_status` (server lines 155-169). -/
def find_pets_by_status (backend : Backend) (arguments : PyDict) : CallToolResult × List ApiRequest :=
  let status := pyGetD arguments "status" (.str "available")
  let params := [("status", status)]
  tryApi (make_api_request backend "GET" "/pet/findByStatus" params none [] none)
    (fun result => "Pets found: " ++ jsonDumps result)
    (fun e => "Error finding pets by status: " ++ pyStr e.message)

/-- Tool handler `find_pets_by_tags` (server lines 172-188): a bare string
`tags` value is wrapped into a one-element list before the query. -/
def find_pets_by_tags (backend : Backend) (arguments : PyDict) : CallToolResult × List ApiRequest :=
  let tags0 := pyGetD arguments "tags" (.arr [])
  let tags := match tags0 with
    | .str s => Json.arr [.str s]
    | t => t
  let params := [("tags", tags)]
  tryApi (make_api_request backend "GET" "/pet/findByTags" params none [] none)
    (fun result => "Pets found: " ++ jsonDumps result)
    (fun e => "Error finding pets by tags: " ++ pyStr e.message)

/-- Tool handler `update_pet_with_form` (server lines 191-214). -/
def update_pet_with_form (backend : Backend) (arguments : PyDict) : CallToolResult × List ApiRequest :=
  let pet_id := pyGet arguments "pet_id"
  if !pyTruthy pet_id then
    (mkResult "Error: Pet ID is required", [])
  else
    let params :=
      (if pyTruthy (pyGet arguments "name") then [("name", pyGet arguments "name")] else [])
        ++ (if pyTruthy (pyGet arguments "status") then [("status", pyGet arguments "status")] else [])
    tryApi (make_api_request backend "POST" ("/pet/" ++ pyStr pet_id) params none [] none)
      (fun result => "Pet updated: " ++ jsonDumps result)
      (fun e => "Error updating pet: " ++ pyStr e.message)

/-- Tool handler `delete_pet` (server lines 217-238). -/
def delete_pet (backend : Backend) (arguments : PyDict) : CallToolResult × List ApiRequest :=
  let pet_id := pyGet arguments "pet_id"
  if !pyTruthy pet_id then
    (mkResult "Error: Pet ID is required", [])
  else
    let headers :=
      if pyTruthy (pyGet arguments "api_key") then [("api_key", pyGet arguments "api_key")] else []
    tryApi (make_api_request backend "DELETE" ("/pet/" ++ pyStr pet_id) [] none headers none)
      (fun result => "Pet deleted successfully: " ++ jsonDumps result)
      (fun e => "Error deleting pet: " ++ pyStr e.message)

/-- Tool handler `upload_pet_image` (server lines 241-265). -/
def upload_pet_image (backend : Backend) (arguments : PyDict) : CallToolResult × List ApiRequest :=
  let pet_id := pyGet arguments "pet_id"
  if !pyTruthy pet_id then
    (mkResult "Error: Pet ID is required", [])
  else
    let params :=
      if pyTruthy (pyGet arguments "additional_metadata") then
        [("additionalMetadata", pyGet arguments "additional_metadata")]
      else []
    tryApi (make_api_request backend "POST" ("/pet/" ++ pyStr pet_id ++ "/uploadImage") params none [] none)
      (fun result => "Image upload response: " ++ jsonDumps result)
      (fun e => "Error uploading image: " ++ pyStr e.message)

/-- Tool handler `get_inventory` (server lines 270-281). -/
def get_inventory (backend : Backend) (arguments : PyDict) : CallToolResult × List ApiRequest :=
  tryApi (make_api_request backend "GET" "/store/inventory" [] none [] none)
    (fun result => "Inventory: " ++ jsonDumps result)
    (fun e => "Error getting inventory: " ++ pyStr e.message)

/-- Tool handler `place_order` (server lines 284-301). -/
def place_order (backend : Backend) (arguments : PyDict) : CallToolResult × List ApiRequest :=
  let order_data := pyGet arguments "order"
  if !pyTruthy order_data then
    (mkResult "Error: Order data is required", [])
  else
    tryApi (make_api_request backend "POST" "/store/order" [] (some order_data) [] none)
      (fun result => "Order placed: " ++ jsonDumps result)
      (fun e => "Error placing order: " ++ pyStr e.message)

/-- Tool handler `get_order_by_id` (server lines 304-321). -/
def get_order_by_id (backend : Backend) (arguments : PyDict) : CallToolResult × List ApiRequest :=
  let order_id := pyGet arguments "order_id"
  if !pyTruthy order_id then
    (mkResult "Error: Order ID is required", [])
  else
    tryApi (make_api_request backend "GET" ("/store/order/" ++ pyStr order_id) [] none [] none)
      (fun result => "Order details: " ++ jsonDumps result)
      (fun e => "Error getting order: " ++ pyStr e.message)

/-- Tool handler `delete_order` (server lines 324-341). -/
def delete_order (backend : Backend) (arguments : PyDict) : CallToolResult × List ApiRequest :=
  let order_id := pyGet arguments "order_id"
  if !pyTruthy order_id then
    (mkResult "Error: Order ID is required", [])
  else
    tryApi (make_api_request backend "DELETE" ("/store/order/" ++ pyStr order_id) [] none [] none)
      (fun result => "Order deleted: " ++ jsonDumps result)
      (fun e => "Error deleting order: " ++ pyStr e.message)

/-- Tool handler `create_user` (server lines 346-363). -/
def create_user (backend : Backend) (arguments : PyDict) : CallToolResult × List ApiRequest :=
  let user_data := pyGet arguments "user"
  if !pyTruthy user_data then
    (mkResult "Error: User data is required", [])
  else
    tryApi (make_api_request backend "POST" "/user" [] (some user_data) [] none)
      (fun result => "User created: " ++ jsonDumps result)
      (fun e => "Error creating user: " ++ pyStr e.message)

/-- Tool handler `create_users_with_list` (server lines 366-383). -/
def create_users_with_list (backend : Backend) (arguments : PyDict) : CallToolResult × List ApiRequest :=
  let users_data := pyGet arguments "users"
  if !pyTruthy users_data then
    (mkResult "Error: Users data is required", [])
  else
    tryApi (make_api_request backend "POST" "/user/createWithList" [] (some users_data) [] none)
      (fun result => "Users created: " ++ jsonDumps result)
      (fun e => "Error creating users: " ++ pyStr e.message)

/-- Tool handler `login_user` (server lines 386-403). -/
def login_user (backend : Backend) (arguments : PyDict) : CallToolResult × List ApiRequest :=
  let params :=
    (if pyTruthy (pyGet arguments "username") then [("username", pyGet arguments "username")] else [])
      ++ (if pyTruthy (pyGet arguments "password") then [("password", pyGet arguments "password")] else [])
  tryApi (make_api_request backend "GET" "/user/login" params none [] none)
    (fun result => "Login successful: " ++ jsonDumps result)
    (fun e => "Error logging in: " ++ pyStr e.message)

/-- Tool handler `logout_user` (server lines 406-417). -/
def logout_user (backend : Backend) (arguments : PyDict) : CallToolResult × List ApiRequest :=
  tryApi (make_api_request backend "GET" "/user/logout" [] none [] none)
    (fun result => "Logout successful: " ++ jsonDumps result)
    (fun e => "Error logging out: " ++ pyStr e.message)

/-- Tool handler `get_user_by_name` (server lines 420-437). -/
def get_user_by_name (backend : Backend) (arguments : PyDict) : CallToolResult × List ApiRequest :=
  let username := pyGet arguments "username"
  if !pyTruthy username then
    (mkResult "Error: Username is required", [])
  else
    tryApi (make_api_request backend "GET" ("/user/" ++ pyStr username) [] none [] none)
      (fun result => "User details: " ++ jsonDumps result)
      (fun e => "Error getting user: " ++ pyStr e.message)

/-- Tool handler `update_user` (server lines 440-463): checks `username`
first, then `user`. -/
def update_user (backend : Backend) (arguments : PyDict) : CallToolResult × List ApiRequest :=
  let username := pyGet arguments "username"
  let user_data := pyGet arguments "user"
  if !pyTruthy username then
    (mkResult "Error: Username is required", [])
  else if !pyTruthy user_data then
    (mkResult "Error: User data is required", [])
  else
    tryApi (make_api_request backend "PUT" ("/user/" ++ pyStr username) [] (some user_data) [] none)
      (fun result => "User updated: " ++ jsonDumps result)
      (fun e => "Error updating user: " ++ pyStr e.message)

/-- Tool handler `delete_user` (server lines 466-483). -/
def delete_user (backend : Backend) (arguments : PyDict) : CallToolResult × List ApiRequest :=
  let username := pyGet arguments "username"
  if !pyTruthy username then
    (mkResult "Error: Username is required", [])
  else
    tryApi (make_api_request backend "DELETE" ("/user/" ++ pyStr username) [] none [] none)
      (fun result => "User deleted: " ++ jsonDumps result)
      (fun e => "Error deleting user: " ++ pyStr e.message)

/-- The name-to-handler dispatch created by the `@server.call_tool()`
registrations: a registered name maps to its handler, an unknown name to
`none`.  The result pairs the handler's `CallToolResult` with the list of
HTTP requests the invocation issued. -/
def dispatch (name : String) (backend : Backend) (arguments : PyDict) :
    Option (CallToolResult × List ApiRequest) :=
  if name = "add_pet" then some (add_pet backend arguments)
  else if name = "update_pet" then some (update_pet backend arguments)
  else if name = "get_pet_by_id" then some (get_pet_by_id backend arguments)
  else if name = "find_pets_by_status" then some (find_pets_by_status backend arguments)
  else if name = "find_pets_by_tags" then some (find_pets_by_tags backend arguments)
  else if name = "update_pet_with_form" then some (update_pet_with_form backend arguments)
  else if name = "delete_pet" then some (delete_pet backend arguments)
  else if name = "upload_pet_image" then some (upload_pet_image backend arguments)
  else if name = "get_inventory" then some (get_inventory backend arguments)
  else if name = "place_order" then some (place_order backend arguments)
  else if name = "get_order_by_id" then some (get_order_by_id backend arguments)
  else if name = "delete_order" then some (delete_order backend arguments)
  else if name = "create_user" then some (create_user backend arguments)
  else if name = "create_users_with_list" then some (create_users_with_list backend arguments)
  else if name = "login_user" then some (login_user backend arguments)
  else if name = "logout_user" then some (logout_user backend arguments)
  else if name = "get_user_by_name" then some (get_user_by_name backend arguments)
  else if name = "update_user" then some (update_user backend arguments)
  else if name = "delete_user" then some (delete_user backend arguments)
  else none

/-- An MCP `Tool` declaration: name, description, JSON-schema of the
arguments. -/
structure Tool where
  name : String
  description : String
  inputSchema : Json

/-- The `properties` block shared verbatim by the `pet` object schema of
`add_pet` and `update_pet` (server lines 502-530 and 546-574). -/
def petObjectProperties : List (String × Json) :=
  [ ("id", .obj [("type", .str "integer")]),
    ("name", .obj [("type", .str "string")]),
    ("category", .obj
      [ ("type", .str "object"),
        ("properties", .obj
          [ ("id", .obj [("type", .str "integer")]),
            ("name", .obj [("type", .str "string")]) ]) ]),
    ("photoUrls", .obj
      [ ("type", .str "array"),
        ("items", .obj [("type", .str "string")]) ]),
    ("tags", .obj
      [ ("type", .str "array"),
        ("items", .obj
          [ ("type", .str "object"),
            ("properties", .obj
              [ ("id", .obj [("type", .str "integer")]),
                ("name", .obj [("type", .str "string")]) ]) ]) ]),
    ("status", .obj
      [ ("type", .str "string"),
        ("enum", .arr [.str "available", .str "pending", .str "sold"]) ]) ]

/-- The user-object `properties` block shared verbatim by `create_user`,
`create_users_with_list` and `update_user` (server lines 755-764, 780-789,
848-857). -/
def userObjectProperties : List (String × Json) :=
  [ ("id", .obj [("type", .str "integer")]),
    ("username", .obj [("type", .str "string")]),
    ("firstName", .obj [("type", .str "string")]),
    ("lastName", .obj [("type", .str "string")]),
    ("email", .obj [("type", .str "string")]),
    ("password", .obj [("type", .str "string")]),
    ("phone", .obj [("type", .str "string")]),
    ("userStatus", .obj [("type", .str "integer")]) ]

/-- The static tool list returned by `handle_list_tools` (server lines
487-877), in source order. -/
def petstoreTools : List Tool :=
  [ { name := "add_pet",
      description := "Add a new pet to the store",
      inputSchema := .obj
        [ ("type", .str "object"),
          ("properties", .obj
            [ ("pet", .obj
                [ ("type", .str "object"),
                  ("description", .str "Pet object with name, photoUrls, and optional category, tags, status"),
                  ("required", .arr [.str "name", .str "photoUrls"]),
                  ("properties", .obj petObjectProperties) ]) ]),
          ("required", .arr [.str "pet"]) ] },
    { name := "update_pet",
      description := "Update an existing pet",
      inputSchema := .obj
        [ ("type", .str "object"),
          ("properties", .obj
            [ ("pet", .obj
                [ ("type", .str "object"),
                  ("description", .str "Pet object with updated information"),
                  ("required", .arr [.str "name", .str "photoUrls"]),
                  ("properties", .obj petObjectProperties) ]) ]),
          ("required", .arr [.str "pet"]) ] },
    { name := "get_pet_by_id",
      description := "Find pet by ID",
      inputSchema := .obj
        [ ("type", .str "object"),
          ("properties", .obj
            [ ("pet_id", .obj
                [ ("type", .str "integer"),
                  ("description", .str "ID of pet to return") ]) ]),
          ("required", .arr [.str "pet_id"]) ] },
    { name := "find_pets_by_status",
      description := "Find pets by status",
      inputSchema := .obj
        [ ("type", .str "object"),
          ("properties", .obj
            [ ("status", .obj
                [ ("type", .str "string"),
                  ("description", .str "Status values to filter by"),
                  ("enum", .arr [.str "available", .str "pending", .str "sold"]),
                  ("default", .str "available") ]) ]) ] },
    { name := "find_pets_by_tags",
      description := "Find pets by tags",
      inputSchema := .obj
        [ ("type", .str "object"),
          ("properties", .obj
            [ ("tags", .obj
                [ ("type", .str "array"),
                  ("items", .obj [("type", .str "string")]),
                  ("description", .str "Tags to filter by") ]) ]) ] },
    { name := "update_pet_with_form",
      description := "Update a pet in the store with form data",
      inputSchema := .obj
        [ ("type", .str "object"),
          ("properties", .obj
            [ ("pet_id", .obj
                [ ("type", .str "integer"),
                  ("description", .str "ID of pet that needs to be updated") ]),
              ("name", .obj
                [ ("type", .str "string"),
                  ("description", .str "Updated name of the pet") ]),
              ("status", .obj
                [ ("type", .str "string"),
                  ("description", .str "Updated status of the pet") ]) ]),
          ("required", .arr [.str "pet_id"]) ] },
    { name := "delete_pet",
      description := "Delete a pet",
      inputSchema := .obj
        [ ("type", .str "object"),
          ("properties", .obj
            [ ("pet_id", .obj
                [ ("type", .str "integer"),
                  ("description", .str "Pet id to delete") ]),
              ("api_key", .obj
                [ ("type", .str "string"),
                  ("description", .str "API key for authentication") ]) ]),
          ("required", .arr [.str "pet_id"]) ] },
    { name := "upload_pet_image",
      description := "Upload an image for a pet",
      inputSchema := .obj
        [ ("type", .str "object"),
          ("properties", .obj
            [ ("pet_id", .obj
                [ ("type", .str "integer"),
                  ("description", .str "ID of pet to update") ]),
              ("additional_metadata", .obj
                [ ("type", .str "string"),
                  ("description", .str "Additional metadata") ]) ]),
          ("required", .arr [.str "pet_id"]) ] },
    { name := "get_inventory",
      description := "Returns pet inventories by status",
      inputSchema := .obj
        [ ("type", .str "object"),
          ("properties", .obj []) ] },
    { name := "place_order",
      description := "Place an order for a pet",
      inputSchema := .obj
        [ ("type", .str "object"),
          ("properties", .obj
            [ ("order", .obj
                [ ("type", .str "object"),
                  ("description", .str "Order object"),
                  ("properties", .obj
                    [ ("id", .obj [("type", .str "integer")]),
                      ("petId", .obj [("type", .str "integer")]),
                      ("quantity", .obj [("type", .str "integer")]),
                      ("shipDate", .obj
                        [ ("type", .str "string"),
                          ("format", .str "date-time") ]),
                      ("status", .obj
                        [ ("type", .str "string"),
                          ("enum", .arr [.str "placed", .str "approved", .str "delivered"]) ]),
                      ("complete", .obj [("type", .str "boolean")]) ]) ]) ]),
          ("required", .arr [.str "order"]) ] },
    { name := "get_order_by_id",
      description := "Find purchase order by ID",
      inputSchema := .obj
        [ ("type", .str "object"),
          ("properties", .obj
            [ ("order_id", .obj
                [ ("type", .str "integer"),
                  ("description", .str "ID of order that needs to be fetched") ]) ]),
          ("required", .arr [.str "order_id"]) ] },
    { name := "delete_order",
      description := "Delete purchase order by ID",
      inputSchema := .obj
        [ ("type", .str "object"),
          ("properties", .obj
            [ ("order_id", .obj
                [ ("type", .str "integer"),
                  ("description", .str "ID of the order that needs to be deleted") ]) ]),
          ("required", .arr [.str "order_id"]) ] },
    { name := "create_user",
      description := "Create user",
      inputSchema := .obj
        [ ("type", .str "object"),
          ("properties", .obj
            [ ("user", .obj
                [ ("type", .str "object"),
                  ("description", .str "Created user object"),
                  ("properties", .obj userObjectProperties) ]) ]),
          ("required", .arr [.str "user"]) ] },
    { name := "create_users_with_list",
      description := "Create list of users with given input array",
      inputSchema := .obj
        [ ("type", .str "object"),
          ("properties", .obj
            [ ("users", .obj
                [ ("type", .str "array"),
                  ("items", .obj
                    [ ("type", .str "object"),
                      ("properties", .obj userObjectProperties) ]) ]) ]),
          ("required", .arr [.str "users"]) ] },
    { name := "login_user",
      description := "Log user into the system",
      inputSchema := .obj
        [ ("type", .str "object"),
          ("properties", .obj
            [ ("username", .obj
                [ ("type", .str "string"),
                  ("description", .str "The user name for login") ]),
              ("password", .obj
                [ ("type", .str "string"),
                  ("description", .str "The password for login in clear text") ]) ]) ] },
    { name := "logout_user",
      description := "Log out current logged in user session",
      inputSchema := .obj
        [ ("type", .str "object"),
          ("properties", .obj []) ] },
    { name := "get_user_by_name",
      description := "Get user by user name",
      inputSchema := .obj
        [ ("type", .str "object"),
          ("properties", .obj
            [ ("username", .obj
                [ ("type", .str "string"),
                  ("description", .str "The name that needs to be fetched") ]) ]),
          ("required", .arr [.str "username"]) ] },
    { name := "update_user",
      description := "Update user",
      inputSchema := .obj
        [ ("type", .str "object"),
          ("properties", .obj
            [ ("username", .obj
                [ ("type", .str "string"),
                  ("description", .str "Name that needs to be updated") ]),
              ("user", .obj
                [ ("type", .str "object"),
                  ("description", .str "Updated user object"),
                  ("properties", .obj userObjectProperties) ]) ]),
          ("required", .arr [.str "username", .str "user"]) ] },
    { name := "delete_user",
      description := "Delete user",
      inputSchema := .obj
        [ ("type", .str "object"),
          ("properties", .obj
            [ ("username", .obj
                [ ("type", .str "string"),
                  ("description", .str "The name that needs to be deleted") ]) ]),
          ("required", .arr [.str "username"]) ] } ]

/-- The mutable process state of the server module: the HTTP transport held by
the global `http_client` plus the history of requests already issued by prior
tool calls. -/
structure ServerState where
  backend : Backend
  issuedRequests : List ApiRequest

/-- `handle_list_tools` (server lines 487-877): its body is a single `return`
of the literal tool list, so it reads and writes no process state. -/
def handle_list_tools (state : ServerState) : List Tool :=
  petstoreTools

/-- The fields marked required at the top level of a tool's `inputSchema`
(the level the handlers validate). -/
def requiredOf (t : Tool) : List String :=
  match t.inputSchema with
  | .obj fields =>
      match pyLookup fields "required" with
      | some (.arr elems) =>
          elems.filterMap (fun v => match v with | .str s => some s | _ => none)
      | _ => []
  | _ => []

/-- The error text a handler returns when the given required field of the
given tool is missing or falsy (read off the handlers' validation branches). -/
def missingFieldText (toolName : String) (fieldName : String) : String :=
  if toolName = "add_pet" ∧ fieldName = "pet" then "Error: Pet data is required"
  else if toolName = "update_pet" ∧ fieldName = "pet" then "Error: Pet data is required"
  else if toolName = "get_pet_by_id" ∧ fieldName = "pet_id" then "Error: Pet ID is required"
  else if toolName = "update_pet_with_form" ∧ fieldName = "pet_id" then "Error: Pet ID is required"
  else if toolName = "delete_pet" ∧ fieldName = "pet_id" then "Error: Pet ID is required"
  else if toolName = "upload_pet_image" ∧ fieldName = "pet_id" then "Error: Pet ID is required"
  else if toolName = "place_order" ∧ fieldName = "order" then "Error: Order data is required"
  else if toolName = "get_order_by_id" ∧ fieldName = "order_id" then "Error: Order ID is required"
  else if toolName = "delete_order" ∧ fieldName = "order_id" then "Error: Order ID is required"
  else if toolName = "create_user" ∧ fieldName = "user" then "Error: User data is required"
  else if toolName = "create_users_with_list" ∧ fieldName = "users" then "Error: Users data is required"
  else if toolName = "get_user_by_name" ∧ fieldName = "username" then "Error: Username is required"
  else if toolName = "update_user" ∧ fieldName = "username" then "Error: Username is required"
  else if toolName = "update_user" ∧ fieldName = "user" then "Error: User data is required"
  else if toolName = "delete_user" ∧ fieldName = "username" then "Error: Username is required"
  else ""

/-- The list of registered tool names, in registry order. -/
def toolNames : List String := petstoreTools.map Tool.name

/-- `ServerConfig` from `client_config.py` (lines 11-24).  The dataclass
defaults after `__post_init__` are produced by `ServerConfig.mkDefault`; the
environment-dependent `os.getcwd()` default for `cwd` is modelled as an
unspecified optional value. -/
structure ServerConfig where
  command : String
  args : List String
  cwd : Option String
  env : Option (List (String × String))
  timeout : Int

/-- The default `ServerConfig()` (command `python3`, args
`["./petstore-mcp-server.py"]`, timeout 30). -/
def ServerConfig.mkDefault : ServerConfig :=
  { command := "python3",
    args := ["./petstore-mcp-server.py"],
    cwd := none,
    env := none,
    timeout := 30 }

/-- `ClientConfig` from `client_config.py` (lines 27-47): server connection
parameters plus the retry/caching fields. -/
structure ClientConfig where
  server : ServerConfig
  retry_attempts : Int
  retry_delay : Rat
  log_level : String
  enable_caching : Bool
  cache_ttl : Int

/-- `ClientConfig.default()` (lines 37-47). -/
def ClientConfig.default : ClientConfig :=
  { server := ServerConfig.mkDefault,
    retry_attempts := 3,
    retry_delay := 1,
    log_level := "INFO",
    enable_caching := true,
    cache_ttl := 300 }

/-- The state a `PetstoreAgent` builds in `__init__` (agent_interface.py lines
19-23): the stored configuration and the server path handed to
`MCPTransport(self.config.server.args[0])`. -/
structure PetstoreAgent where
  config : ClientConfig
  transportPath : String

/-- `PetstoreAgent.__init__(config)`: uses the given configuration or the
default, and reads `config.server.args[0]` (an empty `args` list would raise
`IndexError`, modelled as `none`). -/
def PetstoreAgent.init (config : Option ClientConfig) : Option PetstoreAgent :=
  let c := config.getD ClientConfig.default
  (c.server.args.head?).map (fun p => { config := c, transportPath := p })

/-- `PetstoreAgent.execute_task(task_type, **kwargs)` together with the four
task helpers (agent_interface.py lines 25-86).  `callTool` is the oracle for
`self.transport.call_tool`; a raised `ValueError`/`KeyError`/`TypeError` is
an `Except.error` carrying its text. -/
def execute_task (agent : PetstoreAgent) (callTool : String → PyDict → Json)
    (task_type : String) (kwargs : PyDict) : Except String Json :=
  if task_type = "find_pets" then
    let status := pyGetD kwargs "status" (.str "available")
    let tags := pyGet kwargs "tags"
    let result :=
      if pyTruthy tags then callTool "find_pets_by_tags" [("tags", tags)]
      else callTool "find_pets_by_status" [("status", status)]
    .ok (.obj [("task", .str "find_pets"), ("result", result)])
  else if task_type = "manage_pet" then
    match pyLookup kwargs "action" with
    | none => .error "TypeError: missing required argument: action"
    | some action =>
        let pet_data := pyErase kwargs "action"
        match action with
        | .str "add" =>
            .ok (.obj [("task", .str "manage_pet"), ("action", action),
                       ("result", callTool "add_pet" [("pet", .obj pet_data)])])
        | .str "update" =>
            .ok (.obj [("task", .str "manage_pet"), ("action", action),
                       ("result", callTool "update_pet" [("pet", .obj pet_data)])])
        | .str "delete" =>
            match pyLookup pet_data "id" with
            | none => .error "KeyError: id"
            | some petId =>
                .ok (.obj [("task", .str "manage_pet"), ("action", action),
                           ("result", callTool "delete_pet" [("pet_id", petId)])])
        | _ => .error ("Unknown pet action: " ++ pyStr action)
  else if task_type = "process_order" then
    match pyLookup kwargs "action" with
    | none => .error "TypeError: missing required argument: action"
    | some action =>
        let order_data := pyErase kwargs "action"
        match action with
        | .str "place" =>
            .ok (.obj [("task", .str "process_order"), ("action", action),
                       ("result", callTool "place_order" [("order", .obj order_data)])])
        | .str "get" =>
            match pyLookup order_data "id" with
            | none => .error "KeyError: id"
            | some orderId =>
                .ok (.obj [("task", .str "process_order"), ("action", action),
                           ("result", callTool "get_order_by_id" [("order_id", orderId)])])
        | .str "cancel" =>
            match pyLookup order_data "id" with
            | none => .error "KeyError: id"
            | some orderId =>
                .ok (.obj [("task", .str "process_order"), ("action", action),
                           ("result", callTool "delete_order" [("order_id", orderId)])])
        | _ => .error ("Unknown order action: " ++ pyStr action)
  else if task_type = "manage_user" then
    match pyLookup kwargs "action" with
    | none => .error "TypeError: missing required argument: action"
    | some action =>
        let user_data := pyErase kwargs "action"
        match action with
        | .str "create" =>
            .ok (.obj [("task", .str "manage_user"), ("action", action),
                       ("result", callTool "create_user" [("user", .obj user_data)])])
        | .str "login" =>
            .ok (.obj [("task", .str "manage_user"), ("action", action),
                       ("result", callTool "login_user" user_data)])
        | .str "get" =>
            match pyLookup user_data "username" with
            | none => .error "KeyError: username"
            | some uname =>
                .ok (.obj [("task", .str "manage_user"), ("action", action),
                           ("result", callTool "get_user_by_name" [("username", uname)])])
        | _ => .error ("Unknown user action: " ++ pyStr action)
  else
    .error ("Unknown task type: " ++ task_type)

/-- The observable behavior of one agent operation: the server path the agent
connects to, and the value `execute_task` produces, as a function of the
configuration (`none` models `PetstoreAgent()` with no configuration). -/
def agentRun (config : Option ClientConfig) (callTool : String → PyDict → Json)
    (task_type : String) (kwargs : PyDict) : Option (String × Except String Json) :=
  (PetstoreAgent.init config).map
    (fun a => (a.transportPath, execute_task a callTool task_type kwargs))

/-- The error-message selection rule exactly as the specification words it
("parsed error message field if present, else raw body text, else
HTTP <status>").  Written from the spec's words, not from the code, to be
compared against the rule `make_api_request` actually implements. -/
def specClaimedMessage (r : HttpResponse) : Json :=
  match r.json with
  | some (.obj fields) =>
      match pyLookup fields "message" with
      | some m => m
      | none =>
          if r.text ≠ "" then .str r.text
          else .str ("HTTP " ++ toString r.status_code)
  | _ =>
      if r.text ≠ "" then .str r.text
      else .str ("HTTP " ++ toString r.status_code)

/-- A 404 response whose body is the JSON array `[1, 2]`: it parses as JSON
but carries no "message" field. -/
def respC2 : HttpResponse :=
  { status_code := 404, text := "[1, 2]", json := some (.arr [.num 1, .num 2]) }

/-- A backend answering every request with `respC2`. -/
def backendC2 : Backend := fun _ => .response respC2

/-- `sub` occurs as a contiguous substring of `s`. -/
def strContains (s sub : String) : Prop :=
  ∃ pre post, s = pre ++ sub ++ post

theorem pyGet_of_lookup_none (args : PyDict) (f : String) (h : pyLookup args f = none) :
    pyGet args f = Json.null := by
  simp [pyGet, h]

theorem pyLookup_pyErase_self (d : PyDict) (k : String) : pyLookup (pyErase d k) k = none := by
  induction d with
  | nil => rfl
  | cons p rest ih =>
      obtain ⟨k2, v⟩ := p
      by_cases h : k2 = k
      · simpa [pyErase, h] using ih
      · simpa [pyErase, pyLookup, h] using ih

theorem pyLookup_pyErase_ne (d : PyDict) (k k2 : String) (h : k2 ≠ k) :
    pyLookup (pyErase d k) k2 = pyLookup d k2 := by
  have hk2 : ¬ (k = k2) := fun hc => h hc.symm
  induction d with
  | nil => rfl
  | cons p rest ih =>
      obtain ⟨k3, v⟩ := p
      by_cases hp : k3 = k
      · simpa [pyErase, pyLookup, hp, hk2] using ih
      · by_cases hq : k3 = k2
        · simp [pyErase, pyLookup, hp, hq, h]
        · simpa [pyErase, pyLookup, hp, hq] using ih

theorem pyLookup_pyInsert_self (d : PyDict) (k : String) (v : Json) :
    pyLookup (pyInsert d k v) k = some v := by
  simp [pyInsert, pyLookup]

theorem pyLookup_pyInsert_ne (d : PyDict) (k k2 : String) (v : Json) (h : k2 ≠ k) :
    pyLookup (pyInsert d k v) k2 = pyLookup d k2 := by
  have hk : ¬ (k = k2) := fun hc => h hc.symm
  simp only [pyInsert, pyLookup, if_neg hk]
  exact pyLookup_pyErase_ne d k k2 h

theorem pyGet_pyInsert_self (d : PyDict) (k : String) (v : Json) :
    pyGet (pyInsert d k v) k = v := by
  simp [pyGet, pyLookup_pyInsert_self]

theorem pyGet_pyInsert_ne (d : PyDict) (k k2 : String) (v : Json) (h : k2 ≠ k) :
    pyGet (pyInsert d k v) k2 = pyGet d k2 := by
  simp [pyGet, pyLookup_pyInsert_ne d k k2 v h]

theorem pyGet_pyErase_self (d : PyDict) (k : String) :
    pyGet (pyErase d k) k = Json.null := by
  simp [pyGet, pyLookup_pyErase_self]

theorem pyGet_pyErase_ne (d : PyDict) (k k2 : String) (h : k2 ≠ k) :
    pyGet (pyErase d k) k2 = pyGet d k2 := by
  simp [pyGet, pyLookup_pyErase_ne d k k2 h]

theorem make_api_request_requests (backend : Backend) (method endpoint : String)
    (params : List (String × Json)) (json_data : Option Json)
    (headers : List (String × Json)) (files : Option Json) :
    (make_api_request backend method endpoint params json_data headers files).2 =
      [{ method := method, url := BASE_URL ++ endpoint, params := params,
         json_data := json_data, headers := headers, files := files }] := by
  unfold make_api_request
  dsimp only
  split
  · rfl
  · split
    · rfl
    · split
      · rfl
      · split <;> rfl

theorem tryApi_snd (call : Except PetstoreAPIError Json × List ApiRequest)
    (okText : Json → String) (errText : PetstoreAPIError → String) :
    (tryApi call okText errText).2 = call.2 := by
  obtain ⟨res, reqs⟩ := call
  cases res <;> rfl

theorem tryApi_uniform (call : Except PetstoreAPIError Json × List ApiRequest)
    (okText : Json → String) (errText : PetstoreAPIError → String) :
    ∃ s reqs, tryApi call okText errText = (mkResult s, reqs) := by
  obtain ⟨res, reqs⟩ := call
  cases res <;> exact ⟨_, _, rfl⟩
theorem find_pets_by_status_uniform (backend : Backend) (args : PyDict) :
    ∃ s reqs, find_pets_by_status backend args = (mkResult s, reqs) := by
  unfold find_pets_by_status
  dsimp only
  exact tryApi_uniform _ _ _

theorem find_pets_by_tags_uniform (backend : Backend) (args : PyDict) :
    ∃ s reqs, find_pets_by_tags backend args = (mkResult s, reqs) := by
  unfold find_pets_by_tags
  dsimp only
  exact tryApi_uniform _ _ _

theorem get_inventory_uniform (backend : Backend) (args : PyDict) :
    ∃ s reqs, get_inventory backend args = (mkResult s, reqs) := by
  unfold get_inventory
  exact tryApi_uniform _ _ _

theorem login_user_uniform (backend : Backend) (args : PyDict) :
    ∃ s reqs, login_user backend args = (mkResult s, reqs) := by
  unfold login_user
  dsimp only
  exact tryApi_uniform _ _ _

theorem logout_user_uniform (backend : Backend) (args : PyDict) :
    ∃ s reqs, logout_user backend args = (mkResult s, reqs) := by
  unfold logout_user
  exact tryApi_uniform _ _ _

theorem add_pet_uniform (backend : Backend) (args : PyDict) :
    ∃ s reqs, add_pet backend args = (mkResult s, reqs) := by
  unfold add_pet
  dsimp only
  split
  · exact ⟨_, _, rfl⟩
  · exact tryApi_uniform _ _ _

theorem update_pet_uniform (backend : Backend) (args : PyDict) :
    ∃ s reqs, update_pet backend args = (mkResult s, reqs) := by
  unfold update_pet
  dsimp only
  split
  · exact ⟨_, _, rfl⟩
  · exact tryApi_uniform _ _ _

theorem get_pet_by_id_uniform (backend : Backend) (args : PyDict) :
    ∃ s reqs, get_pet_by_id backend args = (mkResult s, reqs) := by
  unfold get_pet_by_id
  dsimp only
  split
  · exact ⟨_, _, rfl⟩
  · exact tryApi_uniform _ _ _

theorem update_pet_with_form_uniform (backend : Backend) (args : PyDict) :
    ∃ s reqs, update_pet_with_form backend args = (mkResult s, reqs) := by
  unfold update_pet_with_form
  dsimp only
  split
  · exact ⟨_, _, rfl⟩
  · exact tryApi_uniform _ _ _

theorem delete_pet_uniform (backend : Backend) (args : PyDict) :
    ∃ s reqs, delete_pet backend args = (mkResult s, reqs) := by
  unfold delete_pet
  dsimp only
  split
  · exact ⟨_, _, rfl⟩
  · exact tryApi_uniform _ _ _

theorem upload_pet_image_uniform (backend : Backend) (args : PyDict) :
    ∃ s reqs, upload_pet_image backend args = (mkResult s, reqs) := by
  unfold upload_pet_image
  dsimp only
  split
  · exact ⟨_, _, rfl⟩
  · exact tryApi_uniform _ _ _

theorem place_order_uniform (backend : Backend) (args : PyDict) :
    ∃ s reqs, place_order backend args = (mkResult s, reqs) := by
  unfold place_order
  dsimp only
  split
  · exact ⟨_, _, rfl⟩
  · exact tryApi_uniform _ _ _

theorem get_order_by_id_uniform (backend : Backend) (args : PyDict) :
    ∃ s reqs, get_order_by_id backend args = (mkResult s, reqs) := by
  unfold get_order_by_id
  dsimp only
  split
  · exact ⟨_, _, rfl⟩
  · exact tryApi_uniform _ _ _

theorem delete_order_uniform (backend : Backend) (args : PyDict) :
    ∃ s reqs, delete_order backend args = (mkResult s, reqs) := by
  unfold delete_order
  dsimp only
  split
  · exact ⟨_, _, rfl⟩
  · exact tryApi_uniform _ _ _

theorem create_user_uniform (backend : Backend) (args : PyDict) :
    ∃ s reqs, create_user backend args = (mkResult s, reqs) := by
  unfold create_user
  dsimp only
  split
  · exact ⟨_, _, rfl⟩
  · exact tryApi_uniform _ _ _

theorem create_users_with_list_uniform (backend : Backend) (args : PyDict) :
    ∃ s reqs, create_users_with_list backend args = (mkResult s, reqs) := by
  unfold create_users_with_list
  dsimp only
  split
  · exact ⟨_, _, rfl⟩
  · exact tryApi_uniform _ _ _

theorem get_user_by_name_uniform (backend : Backend) (args : PyDict) :
    ∃ s reqs, get_user_by_name backend args = (mkResult s, reqs) := by
  unfold get_user_by_name
  dsimp only
  split
  · exact ⟨_, _, rfl⟩
  · exact tryApi_uniform _ _ _

theorem delete_user_uniform (backend : Backend) (args : PyDict) :
    ∃ s reqs, delete_user backend args = (mkResult s, reqs) := by
  unfold delete_user
  dsimp only
  split
  · exact ⟨_, _, rfl⟩
  · exact tryApi_uniform _ _ _

theorem update_user_uniform (backend : Backend) (args : PyDict) :
    ∃ s reqs, update_user backend args = (mkResult s, reqs) := by
  unfold update_user
  dsimp only
  split
  · exact ⟨_, _, rfl⟩
  · split
    · exact ⟨_, _, rfl⟩
    · exact tryApi_uniform _ _ _

theorem petstoreTools_name_required :
    petstoreTools.map (fun t => (t.name, requiredOf t)) =
      [("add_pet", ["pet"]), ("update_pet", ["pet"]), ("get_pet_by_id", ["pet_id"]),
       ("find_pets_by_status", []), ("find_pets_by_tags", []),
       ("update_pet_with_form", ["pet_id"]), ("delete_pet", ["pet_id"]),
       ("upload_pet_image", ["pet_id"]), ("get_inventory", []),
       ("place_order", ["order"]), ("get_order_by_id", ["order_id"]),
       ("delete_order", ["order_id"]), ("create_user", ["user"]),
       ("create_users_with_list", ["users"]), ("login_user", []), ("logout_user", []),
       ("get_user_by_name", ["username"]), ("update_user", ["username", "user"]),
       ("delete_user", ["username"])] := by rfl

theorem toolNames_eq :
    toolNames =
      ["add_pet", "update_pet", "get_pet_by_id", "find_pets_by_status",
       "find_pets_by_tags", "update_pet_with_form", "delete_pet", "upload_pet_image",
       "get_inventory", "place_order", "get_order_by_id", "delete_order",
       "create_user", "create_users_with_list", "login_user", "logout_user",
       "get_user_by_name", "update_user", "delete_user"] := by rfl

/-- A backend answering every request with HTTP 200 and an empty body (the
stubbed backend of the spec's empty-body test). -/
def backendEmpty200 : Backend :=
  fun _ => .response { status_code := 200, text := "", json := none }

/-- A backend answering every request with HTTP 404 and the JSON error body
`{"message": "Pet not found"}`. -/
def backend404 : Backend :=
  fun _ => .response
    { status_code := 404,
      text := "\x7b\"message\": \"Pet not found\"\x7d",
      json := some (.obj [("message", .str "Pet not found")]) }

/-- C1: whenever the backend responds with HTTP status < 400,
`make_api_request` returns the parsed JSON body when the body parses as JSON,
otherwise the literal text body, otherwise (empty body) the synthetic
completion marker — never a parse error.  The hypothesis `hempty` records
that an empty body never parses as JSON. -/
theorem success_response_normalization
    (backend : Backend) (method endpoint : String)
    (params : List (String × Json)) (json_data : Option Json)
    (headers : List (String × Json)) (files : Option Json)
    (r : HttpResponse)
    (hresp : backend { method := method, url := BASE_URL ++ endpoint, params := params,
                       json_data := json_data, headers := headers, files := files } = .response r)
    (hstatus : r.status_code < 400)
    (hempty : r.text = "" → r.json = none) :
    (make_api_request backend method endpoint params json_data headers files).1 =
      .ok (match r.json with
        | some v => v
        | none =>
            if r.text = "" then
              .obj [("status", .str "success"),
                    ("message", .str "Operation completed successfully")]
            else
              .obj [("status", .str "success"), ("data", .str r.text)]) := by
  unfold make_api_request
  dsimp only
  rw [hresp]
  dsimp only
  have h400 : ¬ (r.status_code ≥ 400) := by omega
  rw [if_neg h400]
  by_cases ht : r.text = ""
  · rw [hempty ht]
    simp [ht]
  · simp only [if_neg ht]
    cases hj : r.json with
    | none => simp
    | some v => simp

/-- C1 witness: a stubbed 200 response with an empty body yields the
synthetic completion marker. -/
theorem success_response_normalization_witness :
    (make_api_request backendEmpty200 "GET" "/store/inventory" [] none [] none).1 =
      .ok (.obj [("status", .str "success"),
                 ("message", .str "Operation completed successfully")]) := by
  have h := success_response_normalization backendEmpty200 "GET" "/store/inventory"
    [] none [] none { status_code := 200, text := "", json := none }
    rfl (by decide) (fun _ => rfl)
  simpa using h

/-- C2 counterexample: a 404 response whose body `[1, 2]` parses as JSON but
is not an object with a "message" field.  The claim's selection order ("the
message field if present, else the raw body text, else HTTP <status>")
predicts the message `"[1, 2]"`, but the code produces `"HTTP 404"`: the raw
body text is used only when JSON parsing fails. -/
theorem error_message_selection_counterexample :
    (make_api_request backendC2 "GET" "/pet/9" [] none [] none).1 =
      .error { status_code := 404, message := .str "HTTP 404" } ∧
    specClaimedMessage respC2 = .str "[1, 2]" ∧
    ("HTTP 404" : String) ≠ "[1, 2]" :=
  ⟨rfl, rfl, by decide⟩

/-- C2 (amended): for HTTP status ≥ 400 the call fails with code equal to the
status and message selected as follows: the "message" field of the error body
when the body parses as a JSON object containing one; else, when the body
does not parse as JSON, the raw body text if non-empty; else "HTTP <status>"
(a body that parses as JSON without a "message" field also yields
"HTTP <status>", not the raw text). -/
theorem error_response_normalization
    (backend : Backend) (method endpoint : String)
    (params : List (String × Json)) (json_data : Option Json)
    (headers : List (String × Json)) (files : Option Json)
    (r : HttpResponse)
    (hresp : backend { method := method, url := BASE_URL ++ endpoint, params := params,
                       json_data := json_data, headers := headers, files := files } = .response r)
    (hstatus : r.status_code ≥ 400) :
    (make_api_request backend method endpoint params json_data headers files).1 =
      .error { status_code := r.status_code,
               message :=
                 match r.json with
                 | some (.obj fields) =>
                     match pyLookup fields "message" with
                     | some m => m
                     | none => .str ("HTTP " ++ toString r.status_code)
                 | some _ => .str ("HTTP " ++ toString r.status_code)
                 | none =>
                     if r.text ≠ "" then .str r.text
                     else .str ("HTTP " ++ toString r.status_code) } := by
  unfold make_api_request
  dsimp only
  rw [hresp]
  dsimp only
  rw [if_pos hstatus]
  cases hj : r.json with
  | none =>
      by_cases ht : r.text = "" <;> simp [ht]
  | some j => cases j <;> simp

/-- C2 witness (the spec's own example): a 404 response with JSON body
`{"message": "Pet not found"}` yields code 404 and message "Pet not found". -/
theorem error_response_normalization_witness :
    (make_api_request backend404 "GET" "/pet/1" [] none [] none).1 =
      .error { status_code := 404, message := .str "Pet not found" } := by
  have h := error_response_normalization backend404 "GET" "/pet/1" [] none [] none
    { status_code := 404,
      text := "\x7b\"message\": \"Pet not found\"\x7d",
      json := some (.obj [("message", .str "Pet not found")]) }
    rfl (by decide)
  simpa [pyLookup] using h

/-- C3: for every tool with a top-level required field in its schema, a call
whose arguments omit that field (the other required fields being properly
supplied) returns the handler's "... is required" error result for that field
and issues no HTTP request. -/
theorem missing_required_field_rejected
    (t : Tool) (ht : t ∈ petstoreTools) (f : String) (hf : f ∈ requiredOf t)
    (args : PyDict) (backend : Backend)
    (habsent : pyLookup args f = none)
    (hothers : ∀ g ∈ requiredOf t, g ≠ f → pyTruthy (pyGet args g) = true) :
    dispatch t.name backend args = some (mkResult (missingFieldText t.name f), []) := by
  have hget := pyGet_of_lookup_none args f habsent
  have hmem := List.mem_map_of_mem (fun t => (t.name, requiredOf t)) ht
  rw [petstoreTools_name_required] at hmem
  simp only [List.mem_cons, List.not_mem_nil, or_false, Prod.mk.injEq] at hmem
  rcases hmem with ⟨hn, hr⟩ | ⟨hn, hr⟩ | ⟨hn, hr⟩ | ⟨hn, hr⟩ | ⟨hn, hr⟩ | ⟨hn, hr⟩ |
    ⟨hn, hr⟩ | ⟨hn, hr⟩ | ⟨hn, hr⟩ | ⟨hn, hr⟩ | ⟨hn, hr⟩ | ⟨hn, hr⟩ | ⟨hn, hr⟩ |
    ⟨hn, hr⟩ | ⟨hn, hr⟩ | ⟨hn, hr⟩ | ⟨hn, hr⟩ | ⟨hn, hr⟩ | ⟨hn, hr⟩
  · rw [hr] at hf
    simp only [List.mem_singleton] at hf
    subst hf
    rw [hn]
    simp [dispatch, missingFieldText, add_pet, hget, pyTruthy]
  · rw [hr] at hf
    simp only [List.mem_singleton] at hf
    subst hf
    rw [hn]
    simp [dispatch, missingFieldText, update_pet, hget, pyTruthy]
  · rw [hr] at hf
    simp only [List.mem_singleton] at hf
    subst hf
    rw [hn]
    simp [dispatch, missingFieldText, get_pet_by_id, hget, pyTruthy]
  · rw [hr] at hf
    simp at hf
  · rw [hr] at hf
    simp at hf
  · rw [hr] at hf
    simp only [List.mem_singleton] at hf
    subst hf
    rw [hn]
    simp [dispatch, missingFieldText, update_pet_with_form, hget, pyTruthy]
  · rw [hr] at hf
    simp only [List.mem_singleton] at hf
    subst hf
    rw [hn]
    simp [dispatch, missingFieldText, delete_pet, hget, pyTruthy]
  · rw [hr] at hf
    simp only [List.mem_singleton] at hf
    subst hf
    rw [hn]
    simp [dispatch, missingFieldText, upload_pet_image, hget, pyTruthy]
  · rw [hr] at hf
    simp at hf
  · rw [hr] at hf
    simp only [List.mem_singleton] at hf
    subst hf
    rw [hn]
    simp [dispatch, missingFieldText, place_order, hget, pyTruthy]
  · rw [hr] at hf
    simp only [List.mem_singleton] at hf
    subst hf
    rw [hn]
    simp [dispatch, missingFieldText, get_order_by_id, hget, pyTruthy]
  · rw [hr] at hf
    simp only [List.mem_singleton] at hf
    subst hf
    rw [hn]
    simp [dispatch, missingFieldText, delete_order, hget, pyTruthy]
  · rw [hr] at hf
    simp only [List.mem_singleton] at hf
    subst hf
    rw [hn]
    simp [dispatch, missingFieldText, create_user, hget, pyTruthy]
  · rw [hr] at hf
    simp only [List.mem_singleton] at hf
    subst hf
    rw [hn]
    simp [dispatch, missingFieldText, create_users_with_list, hget, pyTruthy]
  · rw [hr] at hf
    simp at hf
  · rw [hr] at hf
    simp at hf
  · rw [hr] at hf
    simp only [List.mem_singleton] at hf
    subst hf
    rw [hn]
    simp [dispatch, missingFieldText, get_user_by_name, hget, pyTruthy]
  · rw [hr] at hf hothers
    rw [hn]
    rcases List.mem_pair.mp hf with rfl | rfl
    · simp [dispatch, missingFieldText, update_user, hget, pyTruthy]
    · have huser : pyTruthy (pyGet args "username") = true := by
        apply hothers "username" (List.mem_cons_self _ _)
        decide
      have hfalsy : pyTruthy (pyGet args "user") = false := by rw [hget]; rfl
      simp [dispatch, missingFieldText, update_user, huser, hfalsy]
  · rw [hr] at hf
    simp only [List.mem_singleton] at hf
    subst hf
    rw [hn]
    simp [dispatch, missingFieldText, delete_user, hget, pyTruthy]

/-- C3 witness: calling `get_pet_by_id` with empty arguments returns the
"Error: Pet ID is required" result and issues no HTTP request. -/
theorem missing_required_field_rejected_witness :
    dispatch "get_pet_by_id" backendEmpty200 [] =
      some (mkResult "Error: Pet ID is required", []) := by
  have hlt : 2 < petstoreTools.length := by decide
  have h := missing_required_field_rejected (petstoreTools[2])
    (List.getElem_mem hlt) "pet_id"
    (by
      have : "pet_id" ∈ (["pet_id"] : List String) := List.mem_singleton.mpr rfl
      exact this)
    [] backendEmpty200 rfl
    (by
      intro g hg hne
      have hg2 : g ∈ (["pet_id"] : List String) := hg
      simp only [List.mem_singleton] at hg2
      exact absurd hg2 hne)
  exact h

theorem tryApi_pair (call : Except PetstoreAPIError Json × List ApiRequest)
    (okText : Json → String) (errText : PetstoreAPIError → String) :
    tryApi call okText errText = ((tryApi call okText errText).1, call.2) := by
  obtain ⟨res, reqs⟩ := call
  cases res <;> rfl

theorem dispatch_returns_uniform (name : String) (hname : name ∈ toolNames)
    (backend : Backend) (args : PyDict) :
    ∃ s reqs, dispatch name backend args = some (mkResult s, reqs) := by
  rw [toolNames_eq] at hname
  simp only [List.mem_cons, List.not_mem_nil, or_false] at hname
  rcases hname with rfl | rfl | rfl | rfl | rfl | rfl | rfl | rfl | rfl | rfl |
    rfl | rfl | rfl | rfl | rfl | rfl | rfl | rfl | rfl
  · obtain ⟨s, reqs, hs⟩ := add_pet_uniform backend args
    exact ⟨s, reqs, by simp [dispatch, hs]⟩
  · obtain ⟨s, reqs, hs⟩ := update_pet_uniform backend args
    exact ⟨s, reqs, by simp [dispatch, hs]⟩
  · obtain ⟨s, reqs, hs⟩ := get_pet_by_id_uniform backend args
    exact ⟨s, reqs, by simp [dispatch, hs]⟩
  · obtain ⟨s, reqs, hs⟩ := find_pets_by_status_uniform backend args
    exact ⟨s, reqs, by simp [dispatch, hs]⟩
  · obtain ⟨s, reqs, hs⟩ := find_pets_by_tags_uniform backend args
    exact ⟨s, reqs, by simp [dispatch, hs]⟩
  · obtain ⟨s, reqs, hs⟩ := update_pet_with_form_uniform backend args
    exact ⟨s, reqs, by simp [dispatch, hs]⟩
  · obtain ⟨s, reqs, hs⟩ := delete_pet_uniform backend args
    exact ⟨s, reqs, by simp [dispatch, hs]⟩
  · obtain ⟨s, reqs, hs⟩ := upload_pet_image_uniform backend args
    exact ⟨s, reqs, by simp [dispatch, hs]⟩
  · obtain ⟨s, reqs, hs⟩ := get_inventory_uniform backend args
    exact ⟨s, reqs, by simp [dispatch, hs]⟩
  · obtain ⟨s, reqs, hs⟩ := place_order_uniform backend args
    exact ⟨s, reqs, by simp [dispatch, hs]⟩
  · obtain ⟨s, reqs, hs⟩ := get_order_by_id_uniform backend args
    exact ⟨s, reqs, by simp [dispatch, hs]⟩
  · obtain ⟨s, reqs, hs⟩ := delete_order_uniform backend args
    exact ⟨s, reqs, by simp [dispatch, hs]⟩
  · obtain ⟨s, reqs, hs⟩ := create_user_uniform backend args
    exact ⟨s, reqs, by simp [dispatch, hs]⟩
  · obtain ⟨s, reqs, hs⟩ := create_users_with_list_uniform backend args
    exact ⟨s, reqs, by simp [dispatch, hs]⟩
  · obtain ⟨s, reqs, hs⟩ := login_user_uniform backend args
    exact ⟨s, reqs, by simp [dispatch, hs]⟩
  · obtain ⟨s, reqs, hs⟩ := logout_user_uniform backend args
    exact ⟨s, reqs, by simp [dispatch, hs]⟩
  · obtain ⟨s, reqs, hs⟩ := get_user_by_name_uniform backend args
    exact ⟨s, reqs, by simp [dispatch, hs]⟩
  · obtain ⟨s, reqs, hs⟩ := update_user_uniform backend args
    exact ⟨s, reqs, by simp [dispatch, hs]⟩
  · obtain ⟨s, reqs, hs⟩ := delete_user_uniform backend args
    exact ⟨s, reqs, by simp [dispatch, hs]⟩

/-- A backend on which every request fails at the transport level with a
connection-refused error. -/
def backendDown : Backend := fun _ => .requestError "Connection refused"

/-- C4: when the transport fails (`httpx.RequestError`), `make_api_request`
produces the failure `{code: 0, message: "Request failed: <error text>"}` —
whose message contains the underlying transport error text — and every
registered tool call still returns a uniform `CallToolResult` rather than an
unhandled fault. -/
theorem transport_failure_normalized (e : String) (backend : Backend)
    (hb : ∀ req, backend req = .requestError e) :
    (∀ method endpoint params json_data headers files,
        (make_api_request backend method endpoint params json_data headers files).1 =
          .error { status_code := 0, message := .str ("Request failed: " ++ e) }) ∧
    strContains ("Request failed: " ++ e) e ∧
    (∀ name ∈ toolNames, ∀ args : PyDict,
        ∃ s reqs, dispatch name backend args = some (mkResult s, reqs)) := by
  refine ⟨?_, ⟨"Request failed: ", "", by simp⟩, ?_⟩
  · intro method endpoint params json_data headers files
    unfold make_api_request
    dsimp only
    rw [hb]
  · intro name hname args
    exact dispatch_returns_uniform name hname backend args

/-- C4 witness: a connection-refused transport failure on `add_pet`'s POST
yields Failure{code: 0} with the transport text inside the message. -/
theorem transport_failure_normalized_witness :
    (make_api_request backendDown "POST" "/pet" [] (some (.obj [("name", .str "Rex")])) [] none).1 =
      .error { status_code := 0, message := .str "Request failed: Connection refused" } ∧
    strContains "Request failed: Connection refused" "Connection refused" := by
  have h := transport_failure_normalized "Connection refused" backendDown (fun _ => rfl)
  exact ⟨h.1 "POST" "/pet" [] (some (.obj [("name", .str "Rex")])) [] none, h.2.1⟩

/-- C5: for every registered tool name, any argument dictionary and any
backend behavior (success, HTTP error, or transport error), dispatch returns
a uniform single-text-content result — the caller never observes a raised
exception from the handler. -/
theorem dispatch_total_uniform_result :
    ∀ name ∈ toolNames, ∀ (backend : Backend) (args : PyDict),
      ∃ s reqs, dispatch name backend args = some (mkResult s, reqs) :=
  fun name hname backend args => dispatch_returns_uniform name hname backend args

/-- C5 witness: `add_pet` with empty arguments against an unreachable backend
still returns a uniform result. -/
theorem dispatch_total_uniform_result_witness :
    ∃ s reqs, dispatch "add_pet" backendDown [] = some (mkResult s, reqs) :=
  dispatch_total_uniform_result "add_pet" (by simp [toolNames_eq]) backendDown []

/-- C6: every tool invocation that passes its required-field validation
issues exactly one outbound HTTP request — the dispatch result's request
trace is a one-element list, for every backend and argument dictionary. -/
theorem validated_call_issues_one_request
    (t : Tool) (ht : t ∈ petstoreTools) (backend : Backend) (args : PyDict)
    (hvalid : ∀ f ∈ requiredOf t, pyTruthy (pyGet args f) = true) :
    ∃ result req, dispatch t.name backend args = some (result, [req]) := by
  have hmem := List.mem_map_of_mem (fun t => (t.name, requiredOf t)) ht
  rw [petstoreTools_name_required] at hmem
  simp only [List.mem_cons, List.not_mem_nil, or_false, Prod.mk.injEq] at hmem
  rcases hmem with ⟨hn, hr⟩ | ⟨hn, hr⟩ | ⟨hn, hr⟩ | ⟨hn, hr⟩ | ⟨hn, hr⟩ | ⟨hn, hr⟩ |
    ⟨hn, hr⟩ | ⟨hn, hr⟩ | ⟨hn, hr⟩ | ⟨hn, hr⟩ | ⟨hn, hr⟩ | ⟨hn, hr⟩ | ⟨hn, hr⟩ |
    ⟨hn, hr⟩ | ⟨hn, hr⟩ | ⟨hn, hr⟩ | ⟨hn, hr⟩ | ⟨hn, hr⟩ | ⟨hn, hr⟩
  · rw [hr] at hvalid
    rw [hn]
    have hp : pyTruthy (pyGet args "pet") = true := hvalid "pet" (List.mem_singleton.mpr rfl)
    have hd : dispatch "add_pet" backend args = some (add_pet backend args) := by
      simp [dispatch]
    rw [hd]
    unfold add_pet
    dsimp only
    rw [if_neg (by simp [hp])]
    exact ⟨_, _, by rw [tryApi_pair, make_api_request_requests]⟩
  · rw [hr] at hvalid
    rw [hn]
    have hp : pyTruthy (pyGet args "pet") = true := hvalid "pet" (List.mem_singleton.mpr rfl)
    have hd : dispatch "update_pet" backend args = some (update_pet backend args) := by
      simp [dispatch]
    rw [hd]
    unfold update_pet
    dsimp only
    rw [if_neg (by simp [hp])]
    exact ⟨_, _, by rw [tryApi_pair, make_api_request_requests]⟩
  · rw [hr] at hvalid
    rw [hn]
    have hp : pyTruthy (pyGet args "pet_id") = true := hvalid "pet_id" (List.mem_singleton.mpr rfl)
    have hd : dispatch "get_pet_by_id" backend args = some (get_pet_by_id backend args) := by
      simp [dispatch]
    rw [hd]
    unfold get_pet_by_id
    dsimp only
    rw [if_neg (by simp [hp])]
    exact ⟨_, _, by rw [tryApi_pair, make_api_request_requests]⟩
  · rw [hn]
    have hd : dispatch "find_pets_by_status" backend args = some (find_pets_by_status backend args) := by
      simp [dispatch]
    rw [hd]
    unfold find_pets_by_status
    dsimp only
    exact ⟨_, _, by rw [tryApi_pair, make_api_request_requests]⟩
  · rw [hn]
    have hd : dispatch "find_pets_by_tags" backend args = some (find_pets_by_tags backend args) := by
      simp [dispatch]
    rw [hd]
    unfold find_pets_by_tags
    dsimp only
    exact ⟨_, _, by rw [tryApi_pair, make_api_request_requests]⟩
  · rw [hr] at hvalid
    rw [hn]
    have hp : pyTruthy (pyGet args "pet_id") = true := hvalid "pet_id" (List.mem_singleton.mpr rfl)
    have hd : dispatch "update_pet_with_form" backend args = some (update_pet_with_form backend args) := by
      simp [dispatch]
    rw [hd]
    unfold update_pet_with_form
    dsimp only
    rw [if_neg (by simp [hp])]
    exact ⟨_, _, by rw [tryApi_pair, make_api_request_requests]⟩
  · rw [hr] at hvalid
    rw [hn]
    have hp : pyTruthy (pyGet args "pet_id") = true := hvalid "pet_id" (List.mem_singleton.mpr rfl)
    have hd : dispatch "delete_pet" backend args = some (delete_pet backend args) := by
      simp [dispatch]
    rw [hd]
    unfold delete_pet
    dsimp only
    rw [if_neg (by simp [hp])]
    exact ⟨_, _, by rw [tryApi_pair, make_api_request_requests]⟩
  · rw [hr] at hvalid
    rw [hn]
    have hp : pyTruthy (pyGet args "pet_id") = true := hvalid "pet_id" (List.mem_singleton.mpr rfl)
    have hd : dispatch "upload_pet_image" backend args = some (upload_pet_image backend args) := by
      simp [dispatch]
    rw [hd]
    unfold upload_pet_image
    dsimp only
    rw [if_neg (by simp [hp])]
    exact ⟨_, _, by rw [tryApi_pair, make_api_request_requests]⟩
  · rw [hn]
    have hd : dispatch "get_inventory" backend args = some (get_inventory backend args) := by
      simp [dispatch]
    rw [hd]
    unfold get_inventory
    exact ⟨_, _, by rw [tryApi_pair, make_api_request_requests]⟩
  · rw [hr] at hvalid
    rw [hn]
    have hp : pyTruthy (pyGet args "order") = true := hvalid "order" (List.mem_singleton.mpr rfl)
    have hd : dispatch "place_order" backend args = some (place_order backend args) := by
      simp [dispatch]
    rw [hd]
    unfold place_order
    dsimp only
    rw [if_neg (by simp [hp])]
    exact ⟨_, _, by rw [tryApi_pair, make_api_request_requests]⟩
  · rw [hr] at hvalid
    rw [hn]
    have hp : pyTruthy (pyGet args "order_id") = true := hvalid "order_id" (List.mem_singleton.mpr rfl)
    have hd : dispatch "get_order_by_id" backend args = some (get_order_by_id backend args) := by
      simp [dispatch]
    rw [hd]
    unfold get_order_by_id
    dsimp only
    rw [if_neg (by simp [hp])]
    exact ⟨_, _, by rw [tryApi_pair, make_api_request_requests]⟩
  · rw [hr] at hvalid
    rw [hn]
    have hp : pyTruthy (pyGet args "order_id") = true := hvalid "order_id" (List.mem_singleton.mpr rfl)
    have hd : dispatch "delete_order" backend args = some (delete_order backend args) := by
      simp [dispatch]
    rw [hd]
    unfold delete_order
    dsimp only
    rw [if_neg (by simp [hp])]
    exact ⟨_, _, by rw [tryApi_pair, make_api_request_requests]⟩
  · rw [hr] at hvalid
    rw [hn]
    have hp : pyTruthy (pyGet args "user") = true := hvalid "user" (List.mem_singleton.mpr rfl)
    have hd : dispatch "create_user" backend args = some (create_user backend args) := by
      simp [dispatch]
    rw [hd]
    unfold create_user
    dsimp only
    rw [if_neg (by simp [hp])]
    exact ⟨_, _, by rw [tryApi_pair, make_api_request_requests]⟩
  · rw [hr] at hvalid
    rw [hn]
    have hp : pyTruthy (pyGet args "users") = true := hvalid "users" (List.mem_singleton.mpr rfl)
    have hd : dispatch "create_users_with_list" backend args = some (create_users_with_list backend args) := by
      simp [dispatch]
    rw [hd]
    unfold create_users_with_list
    dsimp only
    rw [if_neg (by simp [hp])]
    exact ⟨_, _, by rw [tryApi_pair, make_api_request_requests]⟩
  · rw [hn]
    have hd : dispatch "login_user" backend args = some (login_user backend args) := by
      simp [dispatch]
    rw [hd]
    unfold login_user
    dsimp only
    exact ⟨_, _, by rw [tryApi_pair, make_api_request_requests]⟩
  · rw [hn]
    have hd : dispatch "logout_user" backend args = some (logout_user backend args) := by
      simp [dispatch]
    rw [hd]
    unfold logout_user
    exact ⟨_, _, by rw [tryApi_pair, make_api_request_requests]⟩
  · rw [hr] at hvalid
    rw [hn]
    have hp : pyTruthy (pyGet args "username") = true := hvalid "username" (List.mem_singleton.mpr rfl)
    have hd : dispatch "get_user_by_name" backend args = some (get_user_by_name backend args) := by
      simp [dispatch]
    rw [hd]
    unfold get_user_by_name
    dsimp only
    rw [if_neg (by simp [hp])]
    exact ⟨_, _, by rw [tryApi_pair, make_api_request_requests]⟩
  · rw [hr] at hvalid
    rw [hn]
    have h1 : pyTruthy (pyGet args "username") = true := hvalid "username" (by simp)
    have h2 : pyTruthy (pyGet args "user") = true := hvalid "user" (by simp)
    have hd : dispatch "update_user" backend args = some (update_user backend args) := by
      simp [dispatch]
    rw [hd]
    unfold update_user
    dsimp only
    rw [if_neg (by simp [h1]), if_neg (by simp [h2])]
    exact ⟨_, _, by rw [tryApi_pair, make_api_request_requests]⟩
  · rw [hr] at hvalid
    rw [hn]
    have hp : pyTruthy (pyGet args "username") = true := hvalid "username" (List.mem_singleton.mpr rfl)
    have hd : dispatch "delete_user" backend args = some (delete_user backend args) := by
      simp [dispatch]
    rw [hd]
    unfold delete_user
    dsimp only
    rw [if_neg (by simp [hp])]
    exact ⟨_, _, by rw [tryApi_pair, make_api_request_requests]⟩

/-- C6 witness: `get_inventory` (no required fields) issues exactly one
request against a stubbed 200 backend. -/
theorem validated_call_issues_one_request_witness :
    ∃ result req, dispatch "get_inventory" backendEmpty200 [] = some (result, [req]) := by
  have hlt : 8 < petstoreTools.length := by decide
  have h := validated_call_issues_one_request (petstoreTools[8])
    (List.getElem_mem hlt) backendEmpty200 []
    (by
      intro g hg
      exact absurd (show g ∈ ([] : List String) from hg) (List.not_mem_nil g))
  exact h

/-- `execute_task` never reads the stored configuration: its behavior is the
same for any two agents over the same transport. -/
theorem execute_task_ignores_config (a1 a2 : PetstoreAgent)
    (callTool : String → PyDict → Json) (task_type : String) (kwargs : PyDict) :
    execute_task a1 callTool task_type kwargs = execute_task a2 callTool task_type kwargs := rfl

/-- C7: the retry/caching fields of `ClientConfig` (`retry_attempts`,
`retry_delay`, `enable_caching`, `cache_ttl`) are never read: two agent runs
whose configurations agree on everything else (server parameters, log level)
but may differ arbitrarily in those four fields connect to the same server
path, send the same tool calls, and return the same results. -/
theorem retry_cache_config_inert
    (c1 c2 : ClientConfig)
    (hserver : c1.server = c2.server) (hlog : c1.log_level = c2.log_level)
    (callTool : String → PyDict → Json) (task_type : String) (kwargs : PyDict) :
    agentRun (some c1) callTool task_type kwargs =
      agentRun (some c2) callTool task_type kwargs := by
  unfold agentRun PetstoreAgent.init
  dsimp only [Option.getD]
  rw [hserver]
  simp only [Option.map_map]
  congr 1

/-- The default configuration. -/
def configA : ClientConfig := ClientConfig.default

/-- A configuration that differs from the default only in the four
retry/caching fields. -/
def configB : ClientConfig :=
  { server := ServerConfig.mkDefault,
    retry_attempts := 99,
    retry_delay := 9,
    log_level := "INFO",
    enable_caching := false,
    cache_ttl := 1 }

/-- A call-tool oracle that answers `None` to every call. -/
def nullCallTool : String → PyDict → Json := fun _ _ => Json.null

/-- C7 witness: two configurations genuinely differing in the retry/caching
fields produce identical agent behavior. -/
theorem retry_cache_config_inert_witness :
    configA.server = configB.server ∧
    configA.log_level = configB.log_level ∧
    configA.retry_attempts ≠ configB.retry_attempts ∧
    configA.enable_caching ≠ configB.enable_caching ∧
    agentRun (some configA) nullCallTool "find_pets" [] =
      agentRun (some configB) nullCallTool "find_pets" [] :=
  ⟨rfl, rfl, by decide, by decide,
    retry_cache_config_inert configA configB rfl rfl nullCallTool "find_pets" []⟩

/-- C8: `handle_list_tools` is pure static data: it reads no process state
(any two states yield the same value), always returns the fixed registry, and
the nineteen tool names come back in the same stable order on every call. -/
theorem list_tools_pure_static (state1 state2 : ServerState) :
    handle_list_tools state1 = handle_list_tools state2 ∧
    handle_list_tools state1 = petstoreTools ∧
    (handle_list_tools state1).map Tool.name =
      ["add_pet", "update_pet", "get_pet_by_id", "find_pets_by_status",
       "find_pets_by_tags", "update_pet_with_form", "delete_pet", "upload_pet_image",
       "get_inventory", "place_order", "get_order_by_id", "delete_order",
       "create_user", "create_users_with_list", "login_user", "logout_user",
       "get_user_by_name", "update_user", "delete_user"] :=
  ⟨rfl, rfl, rfl⟩

/-- C9: for every required field, binding it to a falsy value (0, "", empty
object or empty list) is indistinguishable from omitting it: the call is
rejected with the same "... is required" error and no HTTP request is issued.
-/
theorem falsy_required_field_treated_as_absent
    (t : Tool) (ht : t ∈ petstoreTools) (f : String) (hf : f ∈ requiredOf t)
    (v : Json) (hv : pyTruthy v = false) (backend : Backend) (args : PyDict) :
    dispatch t.name backend (pyInsert args f v) =
      dispatch t.name backend (pyErase args f) ∧
    ((∀ g ∈ requiredOf t, g ≠ f → pyTruthy (pyGet args g) = true) →
      dispatch t.name backend (pyInsert args f v) =
        some (mkResult (missingFieldText t.name f), [])) := by
  have hmem := List.mem_map_of_mem (fun t => (t.name, requiredOf t)) ht
  rw [petstoreTools_name_required] at hmem
  simp only [List.mem_cons, List.not_mem_nil, or_false, Prod.mk.injEq] at hmem
  rcases hmem with ⟨hn, hr⟩ | ⟨hn, hr⟩ | ⟨hn, hr⟩ | ⟨hn, hr⟩ | ⟨hn, hr⟩ | ⟨hn, hr⟩ |
    ⟨hn, hr⟩ | ⟨hn, hr⟩ | ⟨hn, hr⟩ | ⟨hn, hr⟩ | ⟨hn, hr⟩ | ⟨hn, hr⟩ | ⟨hn, hr⟩ |
    ⟨hn, hr⟩ | ⟨hn, hr⟩ | ⟨hn, hr⟩ | ⟨hn, hr⟩ | ⟨hn, hr⟩ | ⟨hn, hr⟩
  · rw [hr] at hf
    simp only [List.mem_singleton] at hf
    subst hf
    rw [hn]
    have hA : pyTruthy (pyGet (pyInsert args "pet" v) "pet") = false := by
      rw [pyGet_pyInsert_self]; exact hv
    have hB : pyTruthy (pyGet (pyErase args "pet") "pet") = false := by
      rw [pyGet_pyErase_self]; rfl
    constructor
    · simp [dispatch, add_pet, hA, hB]
    · intro _
      simp [dispatch, missingFieldText, add_pet, hA]
  · rw [hr] at hf
    simp only [List.mem_singleton] at hf
    subst hf
    rw [hn]
    have hA : pyTruthy (pyGet (pyInsert args "pet" v) "pet") = false := by
      rw [pyGet_pyInsert_self]; exact hv
    have hB : pyTruthy (pyGet (pyErase args "pet") "pet") = false := by
      rw [pyGet_pyErase_self]; rfl
    constructor
    · simp [dispatch, update_pet, hA, hB]
    · intro _
      simp [dispatch, missingFieldText, update_pet, hA]
  · rw [hr] at hf
    simp only [List.mem_singleton] at hf
    subst hf
    rw [hn]
    have hA : pyTruthy (pyGet (pyInsert args "pet_id" v) "pet_id") = false := by
      rw [pyGet_pyInsert_self]; exact hv
    have hB : pyTruthy (pyGet (pyErase args "pet_id") "pet_id") = false := by
      rw [pyGet_pyErase_self]; rfl
    constructor
    · simp [dispatch, get_pet_by_id, hA, hB]
    · intro _
      simp [dispatch, missingFieldText, get_pet_by_id, hA]
  · rw [hr] at hf
    simp at hf
  · rw [hr] at hf
    simp at hf
  · rw [hr] at hf
    simp only [List.mem_singleton] at hf
    subst hf
    rw [hn]
    have hA : pyTruthy (pyGet (pyInsert args "pet_id" v) "pet_id") = false := by
      rw [pyGet_pyInsert_self]; exact hv
    have hB : pyTruthy (pyGet (pyErase args "pet_id") "pet_id") = false := by
      rw [pyGet_pyErase_self]; rfl
    constructor
    · simp [dispatch, update_pet_with_form, hA, hB]
    · intro _
      simp [dispatch, missingFieldText, update_pet_with_form, hA]
  · rw [hr] at hf
    simp only [List.mem_singleton] at hf
    subst hf
    rw [hn]
    have hA : pyTruthy (pyGet (pyInsert args "pet_id" v) "pet_id") = false := by
      rw [pyGet_pyInsert_self]; exact hv
    have hB : pyTruthy (pyGet (pyErase args "pet_id") "pet_id") = false := by
      rw [pyGet_pyErase_self]; rfl
    constructor
    · simp [dispatch, delete_pet, hA, hB]
    · intro _
      simp [dispatch, missingFieldText, delete_pet, hA]
  · rw [hr] at hf
    simp only [List.mem_singleton] at hf
    subst hf
    rw [hn]
    have hA : pyTruthy (pyGet (pyInsert args "pet_id" v) "pet_id") = false := by
      rw [pyGet_pyInsert_self]; exact hv
    have hB : pyTruthy (pyGet (pyErase args "pet_id") "pet_id") = false := by
      rw [pyGet_pyErase_self]; rfl
    constructor
    · simp [dispatch, upload_pet_image, hA, hB]
    · intro _
      simp [dispatch, missingFieldText, upload_pet_image, hA]
  · rw [hr] at hf
    simp at hf
  · rw [hr] at hf
    simp only [List.mem_singleton] at hf
    subst hf
    rw [hn]
    have hA : pyTruthy (pyGet (pyInsert args "order" v) "order") = false := by
      rw [pyGet_pyInsert_self]; exact hv
    have hB : pyTruthy (pyGet (pyErase args "order") "order") = false := by
      rw [pyGet_pyErase_self]; rfl
    constructor
    · simp [dispatch, place_order, hA, hB]
    · intro _
      simp [dispatch, missingFieldText, place_order, hA]
  · rw [hr] at hf
    simp only [List.mem_singleton] at hf
    subst hf
    rw [hn]
    have hA : pyTruthy (pyGet (pyInsert args "order_id" v) "order_id") = false := by
      rw [pyGet_pyInsert_self]; exact hv
    have hB : pyTruthy (pyGet (pyErase args "order_id") "order_id") = false := by
      rw [pyGet_pyErase_self]; rfl
    constructor
    · simp [dispatch, get_order_by_id, hA, hB]
    · intro _
      simp [dispatch, missingFieldText, get_order_by_id, hA]
  · rw [hr] at hf
    simp only [List.mem_singleton] at hf
    subst hf
    rw [hn]
    have hA : pyTruthy (pyGet (pyInsert args "order_id" v) "order_id") = false := by
      rw [pyGet_pyInsert_self]; exact hv
    have hB : pyTruthy (pyGet (pyErase args "order_id") "order_id") = false := by
      rw [pyGet_pyErase_self]; rfl
    constructor
    · simp [dispatch, delete_order, hA, hB]
    · intro _
      simp [dispatch, missingFieldText, delete_order, hA]
  · rw [hr] at hf
    simp only [List.mem_singleton] at hf
    subst hf
    rw [hn]
    have hA : pyTruthy (pyGet (pyInsert args "user" v) "user") = false := by
      rw [pyGet_pyInsert_self]; exact hv
    have hB : pyTruthy (pyGet (pyErase args "user") "user") = false := by
      rw [pyGet_pyErase_self]; rfl
    constructor
    · simp [dispatch, create_user, hA, hB]
    · intro _
      simp [dispatch, missingFieldText, create_user, hA]
  · rw [hr] at hf
    simp only [List.mem_singleton] at hf
    subst hf
    rw [hn]
    have hA : pyTruthy (pyGet (pyInsert args "users" v) "users") = false := by
      rw [pyGet_pyInsert_self]; exact hv
    have hB : pyTruthy (pyGet (pyErase args "users") "users") = false := by
      rw [pyGet_pyErase_self]; rfl
    constructor
    · simp [dispatch, create_users_with_list, hA, hB]
    · intro _
      simp [dispatch, missingFieldText, create_users_with_list, hA]
  · rw [hr] at hf
    simp at hf
  · rw [hr] at hf
    simp at hf
  · rw [hr] at hf
    simp only [List.mem_singleton] at hf
    subst hf
    rw [hn]
    have hA : pyTruthy (pyGet (pyInsert args "username" v) "username") = false := by
      rw [pyGet_pyInsert_self]; exact hv
    have hB : pyTruthy (pyGet (pyErase args "username") "username") = false := by
      rw [pyGet_pyErase_self]; rfl
    constructor
    · simp [dispatch, get_user_by_name, hA, hB]
    · intro _
      simp [dispatch, missingFieldText, get_user_by_name, hA]
  · rw [hr] at hf
    rcases List.mem_pair.mp hf with rfl | rfl
    · rw [hn]
      have hA : pyTruthy (pyGet (pyInsert args "username" v) "username") = false := by
        rw [pyGet_pyInsert_self]; exact hv
      have hB : pyTruthy (pyGet (pyErase args "username") "username") = false := by
        rw [pyGet_pyErase_self]; rfl
      constructor
      · simp [dispatch, update_user, hA, hB]
      · intro _
        simp [dispatch, missingFieldText, update_user, hA]
    · rw [hn]
      have hni : pyGet (pyInsert args "user" v) "username" = pyGet args "username" :=
        pyGet_pyInsert_ne args "user" "username" v (by decide)
      have hne2 : pyGet (pyErase args "user") "username" = pyGet args "username" :=
        pyGet_pyErase_ne args "user" "username" (by decide)
      have hA : pyTruthy (pyGet (pyInsert args "user" v) "user") = false := by
        rw [pyGet_pyInsert_self]; exact hv
      have hB : pyTruthy (pyGet (pyErase args "user") "user") = false := by
        rw [pyGet_pyErase_self]; rfl
      constructor
      · cases hb : pyTruthy (pyGet args "username") <;>
          simp [dispatch, update_user, hni, hne2, hb, hA, hB]
      · intro hothers
        have huser : pyTruthy (pyGet args "username") = true :=
          hothers "username" (by rw [hr]; simp) (by decide)
        simp [dispatch, missingFieldText, update_user, hni, huser, hA]
  · rw [hr] at hf
    simp only [List.mem_singleton] at hf
    subst hf
    rw [hn]
    have hA : pyTruthy (pyGet (pyInsert args "username" v) "username") = false := by
      rw [pyGet_pyInsert_self]; exact hv
    have hB : pyTruthy (pyGet (pyErase args "username") "username") = false := by
      rw [pyGet_pyErase_self]; rfl
    constructor
    · simp [dispatch, delete_user, hA, hB]
    · intro _
      simp [dispatch, missingFieldText, delete_user, hA]

/-- C9 witness: `get_pet_by_id` with `pet_id = 0` behaves exactly like a call
with `pet_id` absent — rejected with "Error: Pet ID is required", no request.
-/
theorem falsy_required_field_treated_as_absent_witness :
    dispatch "get_pet_by_id" backendEmpty200 [("pet_id", Json.num 0)] =
      dispatch "get_pet_by_id" backendEmpty200 [] ∧
    dispatch "get_pet_by_id" backendEmpty200 [("pet_id", Json.num 0)] =
      some (mkResult "Error: Pet ID is required", []) := by
  have hlt : 2 < petstoreTools.length := by decide
  have h := falsy_required_field_treated_as_absent (petstoreTools[2])
    (List.getElem_mem hlt) "pet_id"
    (show "pet_id" ∈ (["pet_id"] : List String) from List.mem_singleton.mpr rfl)
    (Json.num 0) rfl backendEmpty200 []
  refine ⟨h.1, h.2 ?_⟩
  intro g hg hne
  exact absurd (List.mem_singleton.mp (show g ∈ (["pet_id"] : List String) from hg))
    (fun hc => hne hc)

/-- C10: `find_pets_by_tags` accepts a bare string for `tags` and wraps it
into a one-element list: for every string `s`, the call with `tags = s` is
identical (same HTTP request, same result) to the call with `tags = [s]`,
and the single query issued carries `tags = [s]`. -/
theorem tags_string_wrapped_to_singleton (backend : Backend) (args : PyDict) (s : String) :
    find_pets_by_tags backend (pyInsert args "tags" (.str s)) =
      find_pets_by_tags backend (pyInsert args "tags" (.arr [.str s])) ∧
    (find_pets_by_tags backend (pyInsert args "tags" (.str s))).2 =
      [{ method := "GET", url := BASE_URL ++ "/pet/findByTags",
         params := [("tags", Json.arr [.str s])], json_data := none,
         headers := [], files := none }] := by
  have h1 : pyGetD (pyInsert args "tags" (.str s)) "tags" (.arr []) = .str s := by
    simp [pyGetD, pyLookup_pyInsert_self]
  have h2 : pyGetD (pyInsert args "tags" (.arr [.str s])) "tags" (.arr []) = .arr [.str s] := by
    simp [pyGetD, pyLookup_pyInsert_self]
  constructor
  · unfold find_pets_by_tags
    dsimp only
    rw [h1, h2]
  · unfold find_pets_by_tags
    dsimp only
    rw [h1, tryApi_snd, make_api_request_requests]
